import Mathlib

/-!
Verification of the Gist GEO landing-page backend logic.

The development shallowly embeds the three server-side units of the
repository:

* the signup registrar (`convex/signups.ts`, `createSignup` mutation),
* the health probe / alert formatter / alert dispatcher
  (`lib/health-check.ts`),
* the two HTTP handlers (`/api/health` and the `/api/cron/health-check`
  cron job handler).

Ambient effects are made explicit: the document store is a list of
records threaded through the registrar, network attempts are an oracle
from attempt index to outcome, environment variables are `Option String`
parameters, the wall clock is a string parameter, and every observable
side effect (store reads and writes, sleeps, probes, webhook posts) is
recorded in an event trace returned alongside the result.
-/

namespace GistGeo

/-! ## Signup registrar (convex/signups.ts, convex/schema.ts) -/

/-- A document of the `signups` table: `email` plus an optional `source`
tag, per `convex/schema.ts`. -/
structure SignupRecord where
  email : String
  source : Option String
deriving DecidableEq

/-- The `signups` table in insertion order (the `by_email` index reads
back documents with equal email in creation order, so `List.find?` over
insertion order models `withIndex(..).first()`). -/
abbrev SignupDb := List SignupRecord

/-- One store access performed by the registrar. -/
inductive StoreOp where
  | queryByEmail (email : String)
  | insert (record : SignupRecord)
deriving DecidableEq

/-- The registrar's successful return value `{ success, duplicate }`. -/
structure SignupReturn where
  success : Bool
  duplicate : Bool
deriving DecidableEq

/-- Character class `[^\s@]` of the registrar's email regex: any
character that is neither whitespace nor `@`. -/
def isEmailChar (c : Char) : Bool :=
  !c.isWhitespace && c != '@'

/-- Matching of the anchored regex `^[^\s@]+@[^\s@]+\.[^\s@]+$` on a
character list: the list splits as `a ++ [at] ++ b ++ [dot] ++ c` with
`a`, `b`, `c` nonempty lists of `[^\s@]` characters.  `i` ranges over
candidate positions of the `@`, `j` over candidate positions of the
literal `.`. -/
def matchesEmailChars (s : List Char) : Bool :=
  (List.range s.length).any fun i =>
    (List.range s.length).any fun j =>
      decide (1 ≤ i) && decide (i + 2 ≤ j) && decide (j + 2 ≤ s.length) &&
      (s.getD i ' ' == '@') && (s.getD j ' ' == '.') &&
      ((List.range s.length).all fun k =>
        (k == i) || (k == j) || isEmailChar (s.getD k ' '))

/-- `emailRegex.test(args.email)` from the registrar: the regex
`/^[^\s@]+@[^\s@]+\.[^\s@]+$/` applied to the submitted string. -/
def emailRegexTest (s : String) : Bool :=
  matchesEmailChars s.data

/-- The `createSignup` Convex mutation (`convex/signups.ts`).  Returns
the outcome (`Except` for the thrown validation error), the store after
the call, and the trace of store accesses performed.  The duplicate
lookup is `withIndex("by_email", q.eq("email", args.email)).first()`,
an exact string-equality lookup modelled by `List.find?`. -/
def createSignup (db : SignupDb) (email : String) :
    Except String SignupReturn × SignupDb × List StoreOp :=
  if !emailRegexTest email then
    (Except.error "Invalid email format", db, [])
  else
    match db.find? (fun r => r.email == email) with
    | some _ =>
        (Except.ok ⟨true, true⟩, db, [StoreOp.queryByEmail email])
    | none =>
        let newRecord : SignupRecord := ⟨email, some "landing-page"⟩
        (Except.ok ⟨true, false⟩, db ++ [newRecord],
          [StoreOp.queryByEmail email, StoreOp.insert newRecord])

/-! ## Health probe (lib/health-check.ts, executeHealthCheck) -/

/-- Outcome of one `fetch` attempt inside `executeHealthCheck`: either an
HTTP response (status, statusText, elapsed milliseconds) or a
transport-level exception carrying the exception message. -/
inductive AttemptOutcome where
  | response (status : Nat) (statusText : String) (elapsedMs : Nat)
  | exn (message : String)
deriving DecidableEq

/-- `response.ok`: the HTTP status is in the 2xx success range. -/
def httpOk (s : Nat) : Bool :=
  decide (200 ≤ s) && decide (s < 300)

/-- The error string `executeHealthCheck` records for a failed attempt:
`HTTP {status}: {statusText}` for a non-2xx response, the exception
message for a transport error. -/
def outcomeErrorText : AttemptOutcome → String
  | AttemptOutcome.response s st _ => "HTTP " ++ toString s ++ ": " ++ st
  | AttemptOutcome.exn m => m

/-- Whether an attempt outcome counts as a failure for the probe: a
non-2xx response or a transport exception. -/
def outcomeFails : AttemptOutcome → Bool
  | AttemptOutcome.response s _ _ => !httpOk s
  | AttemptOutcome.exn _ => true

/-- The result shape `HealthCheckResult` of `lib/health-check.ts`. -/
structure HealthCheckResult where
  url : String
  success : Bool
  status : Option Nat
  error : Option String
  attempts : Nat
  responseTime : Option Nat
deriving DecidableEq

/-- Observable events of one `executeHealthCheck` run: the fetch of
attempt `index`, and the `setTimeout` sleep of `ms` milliseconds issued
in the catch branch of attempt `afterAttempt`. -/
inductive ProbeEvent where
  | attempt (index : Nat)
  | sleep (afterAttempt : Nat) (ms : Nat)
deriving DecidableEq

/-- The retry loop of `executeHealthCheck` (`for attempt = 0; attempt <=
retries; attempt++`), with the network modelled by `oracle` (outcome of
each attempt index).  `fuel` counts the loop iterations still allowed
(callers maintain `fuel + attempt = retries + 1`); `lastStatus` and
`lastError` are the accumulators of the source.  On a 2xx response the
loop returns the success result immediately; on a non-2xx response it
records status and error and continues with no sleep (the source's
`setTimeout` sits only in the catch branch); on an exception it records
the error, leaves `lastStatus` unchanged, and sleeps `delayMs` when
`attempt < retries`.  When the loop exhausts, the failure result carries
the accumulators and `attempts = retries + 1`. -/
def healthCheckLoop (url : String) (oracle : Nat → AttemptOutcome)
    (retries delayMs : Nat) :
    Nat → Nat → Option Nat → String → HealthCheckResult × List ProbeEvent
  | 0, _, lastStatus, lastError =>
      (⟨url, false, lastStatus, some lastError, retries + 1, none⟩, [])
  | fuel + 1, attempt, lastStatus, _lastError =>
      match oracle attempt with
      | AttemptOutcome.response s st t =>
          if httpOk s then
            (⟨url, true, some s, none, attempt + 1, some t⟩,
              [ProbeEvent.attempt attempt])
          else
            let rest := healthCheckLoop url oracle retries delayMs fuel
              (attempt + 1) (some s) ("HTTP " ++ toString s ++ ": " ++ st)
            (rest.1, ProbeEvent.attempt attempt :: rest.2)
      | AttemptOutcome.exn m =>
          let sleeps := if attempt < retries then
              [ProbeEvent.sleep attempt delayMs]
            else []
          let rest := healthCheckLoop url oracle retries delayMs fuel
            (attempt + 1) lastStatus m
          (rest.1, ProbeEvent.attempt attempt :: (sleeps ++ rest.2))

/-- `executeHealthCheck(url, retries, delayMs)`: run the retry loop from
attempt `0` with empty accumulators (`lastError = ''`, `lastStatus`
undefined); at most `retries + 1` attempts are made. -/
def executeHealthCheck (url : String) (oracle : Nat → AttemptOutcome)
    (retries delayMs : Nat) : HealthCheckResult × List ProbeEvent :=
  healthCheckLoop url oracle retries delayMs (retries + 1) 0 none ""

/-! ## Alert formatter (lib/health-check.ts, formatHealthAlert) -/

/-- A `text` object of a Slack Block Kit block. -/
structure SlackText where
  type : String
  text : String
  emoji : Option Bool
deriving DecidableEq

/-- A `fields` / `elements` item of a Slack block: `{ type, text }`. -/
structure SlackField where
  type : String
  text : String
deriving DecidableEq

/-- One block of the `SlackHealthAlert` payload. -/
structure SlackBlock where
  type : String
  text : Option SlackText
  fields : Option (List SlackField)
  elements : Option (List SlackField)
deriving DecidableEq

/-- The Slack message payload `SlackHealthAlert`. -/
structure SlackHealthAlert where
  text : String
  blocks : List SlackBlock
deriving DecidableEq

/-- JavaScript string-falsiness on an optional string: `undefined` and
the empty string are falsy, so `x || y` and `if (!x)` treat a present
but empty string like an absent one. -/
def strTruthy : Option String → Option String
  | some s => if s.isEmpty then none else some s
  | none => none

/-- The display text `${result.status || 'N/A'}`: a missing status (and,
by JavaScript falsiness, a `0` status) renders as `N/A`. -/
def statusDisplay : Option Nat → String
  | some s => if s = 0 then "N/A" else toString s
  | none => "N/A"

/-- The display text `${result.error || 'Unknown error'}`: a missing (or
empty, by JavaScript falsiness) error renders as `Unknown error`. -/
def errorDisplay : Option String → String
  | some s => if s.isEmpty then "Unknown error" else s
  | none => "Unknown error"

/-- The four `mrkdwn` fields `formatHealthAlert` builds for one failed
check: URL, status, attempts, error. -/
def failedCheckFields (r : HealthCheckResult) : List SlackField :=
  [ ⟨"mrkdwn", "*🔗 URL:*\n" ++ r.url⟩,
    ⟨"mrkdwn", "*📊 Status:*\n" ++ statusDisplay r.status⟩,
    ⟨"mrkdwn", "*🔄 Attempts:*\n" ++ toString r.attempts⟩,
    ⟨"mrkdwn", "*❌ Error:*\n" ++ errorDisplay r.error⟩ ]

/-- `formatHealthAlert(results, baseUrl)`.  The source also reads the
ambient wall clock (`new Date().toLocaleString(..)` in the
`America/Los_Angeles` time zone); that clock reading is made explicit
here as the `nowText` parameter.  Filters the results to the failed
ones, builds four fields per failed check, and assembles the six-block
payload whose final context block carries the formatted timestamp. -/
def formatHealthAlert (nowText : String) (results : List HealthCheckResult)
    (baseUrl : String) : SlackHealthAlert :=
  let failedChecks := results.filter fun r => !r.success
  let fields := failedChecks.flatMap failedCheckFields
  { text := "🚨 Gist GEO Health Check Failed"
    blocks :=
      [ ⟨"header", some ⟨"plain_text", "🚨 Health Check Alert", some true⟩,
          none, none⟩,
        ⟨"section", some ⟨"mrkdwn",
          "*" ++ toString failedChecks.length ++ "* health check" ++
            (if failedChecks.length > 1 then "s" else "") ++
            " failed for *" ++ baseUrl ++ "*", none⟩, none, none⟩,
        ⟨"divider", none, none, none⟩,
        ⟨"section", none, some fields, none⟩,
        ⟨"divider", none, none, none⟩,
        ⟨"context", none, none,
          some [⟨"mrkdwn", "⏰ " ++ nowText ++ " PST"⟩]⟩ ] }

/-! ## Alert dispatcher (lib/health-check.ts, sendSlackAlert) -/

/-- Outcome of the webhook `fetch` POST: an HTTP response or a transport
exception. -/
inductive PostOutcome where
  | response (status : Nat) (statusText : String)
  | exn (message : String)
deriving DecidableEq

/-- A network call made by the dispatcher: the POST of the formatted
payload to the resolved webhook URL. -/
inductive NetEvent where
  | post (webhook : String) (body : SlackHealthAlert)
deriving DecidableEq

/-- `webhookUrl || process.env.SLACK_WEBHOOK_URL`, with JavaScript
falsiness: an absent or empty explicit argument falls through to the
environment default, which is itself discarded when absent or empty. -/
def resolveWebhook (webhookUrl envWebhook : Option String) : Option String :=
  match strTruthy webhookUrl with
  | some w => some w
  | none => strTruthy envWebhook

/-- `sendSlackAlert(results, baseUrl, webhookUrl?)`.  Environment and
network are explicit: `envWebhook` is `SLACK_WEBHOOK_URL`, `post` the
outcome of the webhook POST (consulted only if a POST is made), and
`nowText` the clock reading passed down to `formatHealthAlert`.  Returns
the boolean result together with the trace of network calls made. -/
def sendSlackAlert (nowText : String) (results : List HealthCheckResult)
    (baseUrl : String) (webhookUrl envWebhook : Option String)
    (post : PostOutcome) : Bool × List NetEvent :=
  match resolveWebhook webhookUrl envWebhook with
  | none => (false, [])
  | some webhook =>
      let failedChecks := results.filter fun r => !r.success
      if failedChecks.length = 0 then
        (true, [])
      else
        let message := formatHealthAlert nowText results baseUrl
        match post with
        | PostOutcome.response s _ => (httpOk s, [NetEvent.post webhook message])
        | PostOutcome.exn _ => (false, [NetEvent.post webhook message])

/-! ## Health-status endpoint (app/api/health/route.ts, GET) -/

/-- The `checks` object of a `HealthCheckResponse`. -/
structure HealthChecks where
  convex : Bool
  environment : Bool
deriving DecidableEq

/-- The `HealthCheckResponse` body of the `/api/health` endpoint. -/
structure HealthCheckResponse where
  status : String
  timestamp : String
  checks : HealthChecks
  error : Option String
deriving DecidableEq

/-- The `GET /api/health` handler.  Environment reads are explicit
(`convexUrl` is `NEXT_PUBLIC_CONVEX_URL`, `nodeEnv` is `NODE_ENV`), the
ISO timestamp is the `timestamp` parameter, and `exn` injects the
unexpected internal exception the source's try/catch guards against
(`none` is normal evaluation; `some msg` is an exception whose derived
message is `msg`).  Returns the body and the HTTP status code.
`convexHealthy` is `!!convexUrl && convexUrl.length > 0` and
`environmentHealthy` is `!!nodeEnv`, both modelled by `strTruthy`. -/
def healthGET (exn : Option String) (convexUrl nodeEnv : Option String)
    (timestamp : String) : HealthCheckResponse × Nat :=
  match exn with
  | some msg =>
      (⟨"error", timestamp, ⟨false, false⟩, some msg⟩, 503)
  | none =>
      let convexHealthy := (strTruthy convexUrl).isSome
      let environmentHealthy := (strTruthy nodeEnv).isSome
      let allHealthy := convexHealthy && environmentHealthy
      let errMsg : Option String :=
        if allHealthy then none
        else some (String.intercalate ", "
          ((if convexHealthy then [] else ["Convex URL not configured"]) ++
           (if environmentHealthy then [] else ["Environment not configured"])))
      (⟨if allHealthy then "ok" else "error", timestamp,
          ⟨convexHealthy, environmentHealthy⟩, errMsg⟩,
        if allHealthy then 200 else 503)

/-! ## Cron health-check handler (app/api/cron/health-check/route.ts) -/

/-- One entry of the cron handler's `results` list: the projection of a
`HealthCheckResult` taken at the end of the handler. -/
structure CronProbeEntry where
  url : String
  success : Bool
  status : Option Nat
  attempts : Nat
  responseTime : Option Nat
  error : Option String
deriving DecidableEq

/-- The 200 response body of the cron handler. -/
structure CronOkBody where
  success : Bool
  timestamp : String
  duration : Nat
  results : List CronProbeEntry
  alertSent : Bool
deriving DecidableEq

/-- A response of the cron handler: either the structured summary or an
`{ error }` body, each with its HTTP status. -/
inductive CronResponse where
  | json (body : CronOkBody) (status : Nat)
  | errJson (error : String) (status : Nat)
deriving DecidableEq

/-- Externally visible actions of the cron handler: issuing a probe
against a URL, and invoking the Slack alert dispatch. -/
inductive CronAction where
  | probe (url : String)
  | alert
deriving DecidableEq

/-- The base URL the cron handler derives from its own request:
`https` exactly when `NODE_ENV === 'production'`, and the `host` header
with fallback `localhost:3000` (JavaScript `||`, so an empty header also
falls back). -/
def cronBaseUrl (nodeEnv hostHeader : Option String) : String :=
  let protocol := if nodeEnv = some "production" then "https" else "http"
  let host := (strTruthy hostHeader).getD "localhost:3000"
  protocol ++ "://" ++ host

/-- The `GET /api/cron/health-check` handler.  Ambient inputs are
explicit: `cronSecret` is `CRON_SECRET`, `authHeader` the request's
`authorization` header, `hostHeader` its `host` header, `nodeEnv` is
`NODE_ENV`, `oracleHome` / `oracleHealth` the network outcomes of the
two probes, `envWebhook` is `SLACK_WEBHOOK_URL`, `post` the webhook POST
outcome, `timestamp` the ISO clock reading, `duration` the measured
elapsed milliseconds, and `alertNowText` the formatted clock reading
used by the alert formatter.  Fails closed on a falsy secret, rejects a
missing or mismatching header, then probes the homepage and
`/api/health` (each with 1 retry, 5000 ms delay), dispatches an alert
when any probe failed (dispatch errors are swallowed), and always
returns a 200 summary whose `alertSent` is `!allPassed`. -/
def cronGET (cronSecret authHeader hostHeader nodeEnv : Option String)
    (oracleHome oracleHealth : Nat → AttemptOutcome)
    (envWebhook : Option String) (post : PostOutcome)
    (timestamp : String) (duration : Nat) (alertNowText : String) :
    CronResponse × List CronAction :=
  match strTruthy cronSecret with
  | none => (CronResponse.errJson "Cron secret not configured" 401, [])
  | some expectedSecret =>
      let expectedAuth := "Bearer " ++ expectedSecret
      if authHeader ≠ some expectedAuth then
        (CronResponse.errJson "Unauthorized" 401, [])
      else
        let baseUrl := cronBaseUrl nodeEnv hostHeader
        let r1 := (executeHealthCheck (baseUrl ++ "/") oracleHome 1 5000).1
        let r2 := (executeHealthCheck (baseUrl ++ "/api/health") oracleHealth 1 5000).1
        let results := [r1, r2]
        let allPassed := results.all fun r => r.success
        let alertActions : List CronAction :=
          if !allPassed then
            let _alertSent := sendSlackAlert alertNowText results baseUrl
              none envWebhook post
            [CronAction.alert]
          else []
        let body : CronOkBody :=
          { success := allPassed
            timestamp := timestamp
            duration := duration
            results := results.map fun r =>
              ⟨r.url, r.success, r.status, r.attempts, r.responseTime, r.error⟩
            alertSent := !allPassed }
        (CronResponse.json body 200,
          [CronAction.probe (baseUrl ++ "/"),
           CronAction.probe (baseUrl ++ "/api/health")] ++ alertActions)

/-! ## Claim theorems: signup registrar -/

/-- C3: for every email string rejected by the registrar's regex
`^[^\s@]+@[^\s@]+\.[^\s@]+$` (one or more non-whitespace non-`@`
characters, `@`, one or more such characters, `.`, one or more such
characters), `createSignup` fails with the validation error
`Invalid email format`, leaves the store unchanged, and performs no
store access at all (empty access trace: no read, no insert). -/
theorem createSignup_invalid_email_no_store_access
    (db : SignupDb) (email : String) (h : emailRegexTest email = false) :
    createSignup db email = (Except.error "Invalid email format", db, []) := by
  simp [createSignup, h]

/-- Witness for C3: the invalid email `not-an-email` is rejected with no
store access from a one-record store. -/
theorem createSignup_invalid_email_no_store_access_witness :
    emailRegexTest "not-an-email" = false ∧
    createSignup [⟨"a@b.c", some "landing-page"⟩] "not-an-email" =
      (Except.error "Invalid email format",
        [⟨"a@b.c", some "landing-page"⟩], []) :=
  ⟨by decide,
    createSignup_invalid_email_no_store_access
      [⟨"a@b.c", some "landing-page"⟩] "not-an-email" (by decide)⟩

/-- C2: for every valid email and every store holding no record for it,
calling `createSignup` twice in sequence returns
`{ success: true, duplicate: false }` then
`{ success: true, duplicate: true }`; the first call inserts exactly one
record, the second call performs only the duplicate read (no write) and
raises no error, and afterwards exactly one record with that email
exists. -/
theorem createSignup_twice_one_record
    (db : SignupDb) (email : String)
    (hvalid : emailRegexTest email = true)
    (hfresh : ∀ r ∈ db, r.email ≠ email) :
    createSignup db email =
      (Except.ok ⟨true, false⟩, db ++ [⟨email, some "landing-page"⟩],
        [StoreOp.queryByEmail email,
         StoreOp.insert ⟨email, some "landing-page"⟩]) ∧
    createSignup (db ++ [⟨email, some "landing-page"⟩]) email =
      (Except.ok ⟨true, true⟩, db ++ [⟨email, some "landing-page"⟩],
        [StoreOp.queryByEmail email]) ∧
    ((db ++ [(⟨email, some "landing-page"⟩ : SignupRecord)]).filter
        (fun r => r.email == email)).length = 1 := by
  have hfind : db.find? (fun r => r.email == email) = none := by
    rw [List.find?_eq_none]
    intro r hr
    simpa using hfresh r hr
  have hfilter : db.filter (fun r => r.email == email) = [] := by
    rw [List.filter_eq_nil_iff]
    intro r hr
    simpa using hfresh r hr
  refine ⟨?_, ?_, ?_⟩
  · simp [createSignup, hvalid, hfind]
  · simp [createSignup, hvalid, List.find?_append, hfind]
  · simp [List.filter_append, hfilter]

/-- Witness for C2: registering `a@b.c` twice from the empty store. -/
theorem createSignup_twice_one_record_witness :
    createSignup [] "a@b.c" =
      (Except.ok ⟨true, false⟩, [⟨"a@b.c", some "landing-page"⟩],
        [StoreOp.queryByEmail "a@b.c",
         StoreOp.insert ⟨"a@b.c", some "landing-page"⟩]) ∧
    createSignup [⟨"a@b.c", some "landing-page"⟩] "a@b.c" =
      (Except.ok ⟨true, true⟩, [⟨"a@b.c", some "landing-page"⟩],
        [StoreOp.queryByEmail "a@b.c"]) ∧
    ((([] : SignupDb) ++ [(⟨"a@b.c", some "landing-page"⟩ : SignupRecord)]).filter
        (fun r => r.email == "a@b.c")).length = 1 :=
  have h := createSignup_twice_one_record [] "a@b.c" (by decide) (by simp)
  ⟨h.1, h.2.1, h.2.2⟩

/-- Case-insensitive agreement of two strings: their characters coincide
after per-character lower-casing.  Two distinct strings with
`differOnlyInCase` differ only in letter case. -/
def differOnlyInCase (a b : String) : Bool :=
  (a.data.map Char.toLower) == (b.data.map Char.toLower)

/-- C10: the registrar does no email normalization — the duplicate
lookup is exact, case-sensitive string equality.  For two distinct valid
emails that agree up to letter case and are both absent from the store,
registering one and then the other reports `duplicate: false` both
times and inserts two distinct records, each carrying the email exactly
as submitted with the fixed source tag `landing-page`. -/
theorem createSignup_case_sensitive_two_records
    (db : SignupDb) (e1 e2 : String)
    (hv1 : emailRegexTest e1 = true) (hv2 : emailRegexTest e2 = true)
    (hcase : differOnlyInCase e1 e2 = true) (hne : e1 ≠ e2)
    (hf1 : ∀ r ∈ db, r.email ≠ e1) (hf2 : ∀ r ∈ db, r.email ≠ e2) :
    createSignup db e1 =
      (Except.ok ⟨true, false⟩, db ++ [⟨e1, some "landing-page"⟩],
        [StoreOp.queryByEmail e1, StoreOp.insert ⟨e1, some "landing-page"⟩]) ∧
    createSignup (db ++ [⟨e1, some "landing-page"⟩]) e2 =
      (Except.ok ⟨true, false⟩,
        db ++ [⟨e1, some "landing-page"⟩, ⟨e2, some "landing-page"⟩],
        [StoreOp.queryByEmail e2, StoreOp.insert ⟨e2, some "landing-page"⟩]) := by
  have hfind1 : db.find? (fun r => r.email == e1) = none := by
    rw [List.find?_eq_none]
    intro r hr
    simpa using hf1 r hr
  have hfind2 : db.find? (fun r => r.email == e2) = none := by
    rw [List.find?_eq_none]
    intro r hr
    simpa using hf2 r hr
  have hbeq : (e1 == e2) = false := beq_eq_false_iff_ne.mpr hne
  constructor
  · simp [createSignup, hv1, hfind1]
  · simp [createSignup, hv2, List.find?_append, hfind2, hbeq]

/-- Witness for C10: `A@b.c` and `a@b.c` differ only in case and both
register as new records from the empty store. -/
theorem createSignup_case_sensitive_two_records_witness :
    createSignup [] "A@b.c" =
      (Except.ok ⟨true, false⟩, [⟨"A@b.c", some "landing-page"⟩],
        [StoreOp.queryByEmail "A@b.c",
         StoreOp.insert ⟨"A@b.c", some "landing-page"⟩]) ∧
    createSignup [⟨"A@b.c", some "landing-page"⟩] "a@b.c" =
      (Except.ok ⟨true, false⟩,
        [⟨"A@b.c", some "landing-page"⟩, ⟨"a@b.c", some "landing-page"⟩],
        [StoreOp.queryByEmail "a@b.c",
         StoreOp.insert ⟨"a@b.c", some "landing-page"⟩]) := by
  have h := createSignup_case_sensitive_two_records [] "A@b.c" "a@b.c"
    (by decide) (by decide) (by decide) (by decide) (by simp) (by simp)
  exact ⟨h.1, h.2⟩

/-! ## Claim theorems: cron handler -/

/-- Every result produced by the retry loop carries the probed URL. -/
theorem healthCheckLoop_url (url : String) (oracle : Nat → AttemptOutcome)
    (retries delayMs : Nat) :
    ∀ fuel attempt lastStatus lastError,
      (healthCheckLoop url oracle retries delayMs fuel
          attempt lastStatus lastError).1.url = url := by
  intro fuel
  induction fuel with
  | zero => intro attempt ls le; rfl
  | succ fuel ih =>
      intro attempt ls le
      rw [healthCheckLoop]
      cases oracle attempt with
      | response s st t =>
          by_cases hok : httpOk s
          · simp [hok]
          · simpa [hok] using ih (attempt + 1) (some s) _
      | exn m => simpa using ih (attempt + 1) ls m

/-- C1: whenever `CRON_SECRET` is unset, or the `authorization` header
is missing or differs from `Bearer <secret>`, the cron handler returns a
401 response with an error body and performs no probing and no alerting
(empty action trace). -/
theorem cronGET_unauthorized_401
    (cronSecret authHeader hostHeader nodeEnv : Option String)
    (oracleHome oracleHealth : Nat → AttemptOutcome)
    (envWebhook : Option String) (post : PostOutcome)
    (timestamp : String) (duration : Nat) (alertNowText : String)
    (h : cronSecret = none ∨
      ∀ s, cronSecret = some s → authHeader ≠ some ("Bearer " ++ s)) :
    ∃ msg, cronGET cronSecret authHeader hostHeader nodeEnv
        oracleHome oracleHealth envWebhook post
        timestamp duration alertNowText =
      (CronResponse.errJson msg 401, []) := by
  rcases h with h | h
  · exact ⟨"Cron secret not configured", by simp [cronGET, h, strTruthy]⟩
  · cases hcs : cronSecret with
    | none =>
        exact ⟨"Cron secret not configured", by simp [cronGET, hcs, strTruthy]⟩
    | some s =>
        by_cases hse : s.isEmpty
        · exact ⟨"Cron secret not configured",
            by simp [cronGET, hcs, strTruthy, hse]⟩
        · exact ⟨"Unauthorized",
            by simp [cronGET, hcs, strTruthy, hse, h s hcs]⟩

/-- Witness for C1: a configured secret with a missing header is
rejected with 401 and an empty action trace. -/
theorem cronGET_unauthorized_401_witness :
    ∃ msg, cronGET (some "topsecret") none (some "gistgeo.ai")
        (some "production") (fun _ => AttemptOutcome.response 200 "OK" 4)
        (fun _ => AttemptOutcome.response 200 "OK" 4) none
        (PostOutcome.response 200 "OK") "2024-11-03T12:00:00.000Z" 9 "Nov 3" =
      (CronResponse.errJson msg 401, []) :=
  cronGET_unauthorized_401 (some "topsecret") none (some "gistgeo.ai")
    (some "production") (fun _ => AttemptOutcome.response 200 "OK" 4)
    (fun _ => AttemptOutcome.response 200 "OK" 4) none
    (PostOutcome.response 200 "OK") "2024-11-03T12:00:00.000Z" 9 "Nov 3"
    (Or.inr (by simp))

/-- C8: whenever authorization succeeds, the cron handler returns HTTP
200 regardless of probe outcomes; the body's `results` list has exactly
one entry per probed URL in issue order (homepage first, then
`/api/health`); and `alertSent` is `true` exactly when some probe
failed — independent of the webhook configuration and of the delivery
outcome (both are arbitrary here). -/
theorem cronGET_authorized_summary
    (cronSecret authHeader hostHeader nodeEnv : Option String)
    (oracleHome oracleHealth : Nat → AttemptOutcome)
    (envWebhook : Option String) (post : PostOutcome)
    (timestamp : String) (duration : Nat) (alertNowText : String)
    (sec : String) (hsec : cronSecret = some sec) (hne : sec.isEmpty = false)
    (hauth : authHeader = some ("Bearer " ++ sec)) :
    ∃ body,
      (cronGET cronSecret authHeader hostHeader nodeEnv
          oracleHome oracleHealth envWebhook post
          timestamp duration alertNowText).1 =
        CronResponse.json body 200 ∧
      body.results.map CronProbeEntry.url =
        [cronBaseUrl nodeEnv hostHeader ++ "/",
         cronBaseUrl nodeEnv hostHeader ++ "/api/health"] ∧
      (body.alertSent = true ↔ ¬ ∀ r ∈ body.results, r.success = true) := by
  subst hsec hauth
  obtain ⟨r1, hr1⟩ : ∃ r, (executeHealthCheck
      (cronBaseUrl nodeEnv hostHeader ++ "/") oracleHome 1 5000).1 = r :=
    ⟨_, rfl⟩
  obtain ⟨r2, hr2⟩ : ∃ r, (executeHealthCheck
      (cronBaseUrl nodeEnv hostHeader ++ "/api/health") oracleHealth 1 5000).1 = r :=
    ⟨_, rfl⟩
  have hu1 : r1.url = cronBaseUrl nodeEnv hostHeader ++ "/" := by
    rw [← hr1]
    exact healthCheckLoop_url _ _ _ _ _ _ _ _
  have hu2 : r2.url = cronBaseUrl nodeEnv hostHeader ++ "/api/health" := by
    rw [← hr2]
    exact healthCheckLoop_url _ _ _ _ _ _ _ _
  refine ⟨⟨r1.success && r2.success, timestamp, duration,
      [⟨r1.url, r1.success, r1.status, r1.attempts, r1.responseTime, r1.error⟩,
       ⟨r2.url, r2.success, r2.status, r2.attempts, r2.responseTime, r2.error⟩],
      !(r1.success && r2.success)⟩, ?_, ?_, ?_⟩
  · simp [cronGET, strTruthy, hne, hr1, hr2]
  · simp [hu1, hu2]
  · cases hs1 : r1.success <;> cases hs2 : r2.success <;> simp [hs1, hs2]

/-- Witness for C8: an authorized request whose health-endpoint probe
fails twice yields a 200 summary with both URLs and `alertSent`. -/
theorem cronGET_authorized_summary_witness :
    ∃ body,
      (cronGET (some "topsecret") (some "Bearer topsecret") none none
          (fun _ => AttemptOutcome.response 200 "OK" 4)
          (fun _ => AttemptOutcome.response 503 "Service Unavailable" 4)
          none (PostOutcome.exn "getaddrinfo ENOTFOUND")
          "2024-11-03T12:00:00.000Z" 9 "Nov 3").1 =
        CronResponse.json body 200 ∧
      body.results.map CronProbeEntry.url =
        [cronBaseUrl none none ++ "/",
         cronBaseUrl none none ++ "/api/health"] ∧
      (body.alertSent = true ↔ ¬ ∀ r ∈ body.results, r.success = true) :=
  cronGET_authorized_summary (some "topsecret") (some "Bearer topsecret")
    none none (fun _ => AttemptOutcome.response 200 "OK" 4)
    (fun _ => AttemptOutcome.response 503 "Service Unavailable" 4)
    none (PostOutcome.exn "getaddrinfo ENOTFOUND")
    "2024-11-03T12:00:00.000Z" 9 "Nov 3" "topsecret" rfl (by decide) rfl

/-! ## Claim theorems: health probe retry delay (C4) -/

/-- C4 counterexample: with `retries = 1` and a server answering
`500 Internal Server Error` on every attempt, attempt 0 fails with a
further attempt remaining, yet the run's event trace contains no sleep
at all — the source's `setTimeout` sits only in the catch branch, so a
non-2xx response retries immediately.  This refutes the claim that the
inter-attempt delay also applies after a non-2xx HTTP response. -/
theorem executeHealthCheck_non2xx_no_sleep_cex :
    executeHealthCheck "https://gistgeo.ai/"
        (fun _ => AttemptOutcome.response 500 "Internal Server Error" 10)
        1 5000 =
      (⟨"https://gistgeo.ai/", false, some 500,
          some "HTTP 500: Internal Server Error", 2, none⟩,
        [ProbeEvent.attempt 0, ProbeEvent.attempt 1]) := by
  decide

/-- Sleep events of the retry loop, characterized: a sleep of `d`
milliseconds in the catch branch of attempt `i` occurs exactly when
`d = delayMs`, attempt `i` was executed and raised a transport
exception, and `i < retries` (never after the final attempt). -/
theorem healthCheckLoop_sleep_mem (url : String)
    (oracle : Nat → AttemptOutcome) (retries delayMs i d : Nat) :
    ∀ fuel attempt lastStatus lastError, fuel + attempt = retries + 1 →
      (ProbeEvent.sleep i d ∈ (healthCheckLoop url oracle retries delayMs fuel
          attempt lastStatus lastError).2 ↔
        (d = delayMs ∧ i < retries ∧
          ProbeEvent.attempt i ∈ (healthCheckLoop url oracle retries delayMs
            fuel attempt lastStatus lastError).2 ∧
          ∃ m, oracle i = AttemptOutcome.exn m)) := by
  intro fuel
  induction fuel with
  | zero =>
      intro attempt ls le _
      simp [healthCheckLoop]
  | succ fuel ih =>
      intro attempt ls le hinv
      rw [healthCheckLoop]
      cases ho : oracle attempt with
      | response s st t =>
          by_cases hok : httpOk s
          · simp only [hok, if_true]
            constructor
            · intro hmem
              simp at hmem
            · rintro ⟨-, -, hatt, m, hm⟩
              simp at hatt
              subst hatt
              rw [ho] at hm
              exact absurd hm (by simp)
          · simp only [hok, if_false]
            have hrec := ih (attempt + 1) (some s)
              ("HTTP " ++ toString s ++ ": " ++ st) (by omega)
            constructor
            · intro hmem
              rcases List.mem_cons.mp hmem with heq | hmem
              · exact absurd heq (by simp)
              · obtain ⟨hd, hi, hatt, hm⟩ := hrec.mp hmem
                exact ⟨hd, hi, List.mem_cons_of_mem _ hatt, hm⟩
            · rintro ⟨hd, hi, hatt, m2, hm⟩
              rcases List.mem_cons.mp hatt with heq | hatt
              · obtain rfl : i = attempt := by simpa using heq
                rw [ho] at hm
                exact absurd hm (by simp)
              · exact List.mem_cons_of_mem _ (hrec.mpr ⟨hd, hi, hatt, m2, hm⟩)
      | exn m =>
          have hrec := ih (attempt + 1) ls m (by omega)
          by_cases hlt : attempt < retries
          · simp only [hlt, if_true]
            constructor
            · intro hmem
              rcases List.mem_cons.mp hmem with heq | hmem
              · exact absurd heq (by simp)
              · rcases List.mem_append.mp hmem with hmem | hmem
                · obtain ⟨rfl, rfl⟩ : i = attempt ∧ d = delayMs := by
                    simpa using hmem
                  exact ⟨rfl, hlt, List.mem_cons_self _ _, m, ho⟩
                · obtain ⟨hd, hi, hatt, hm⟩ := hrec.mp hmem
                  exact ⟨hd, hi,
                    List.mem_cons_of_mem _ (List.mem_append_right _ hatt), hm⟩
            · rintro ⟨hd, hi, hatt, m2, hm⟩
              by_cases hia : i = attempt
              · subst hia hd
                exact List.mem_cons_of_mem _ (List.mem_append_left _ (by simp))
              · rcases List.mem_cons.mp hatt with heq | hatt
                · exact absurd (by simpa using heq) hia
                · rcases List.mem_append.mp hatt with hatt | hatt
                  · exact absurd hatt (by simp)
                  · exact List.mem_cons_of_mem _ (List.mem_append_right _
                      (hrec.mpr ⟨hd, hi, hatt, m2, hm⟩))
          · have hattempt : attempt = retries := by omega
            have hfuel : fuel = 0 := by omega
            subst hfuel
            simp only [hlt, if_false]
            constructor
            · intro hmem
              simp [healthCheckLoop] at hmem
            · rintro ⟨-, hi, hatt, -⟩
              have : i = attempt := by
                simpa [healthCheckLoop] using hatt
              omega

/-- C4 amended: the inter-attempt delay exists only for transport-level
exceptions.  A sleep of `d` milliseconds after attempt `i` occurs in a
run of `executeHealthCheck` exactly when `d = delayMs`, attempt `i` was
made and raised a transport exception, and a further attempt remained
(`i < retries`); in particular there is never a sleep after the final
attempt, and a failed attempt that received a non-2xx HTTP response is
followed by the next attempt with no sleep. -/
theorem executeHealthCheck_sleep_iff_exn (url : String)
    (oracle : Nat → AttemptOutcome) (retries delayMs i d : Nat) :
    ProbeEvent.sleep i d ∈ (executeHealthCheck url oracle retries delayMs).2 ↔
      (d = delayMs ∧ i < retries ∧
        ProbeEvent.attempt i ∈ (executeHealthCheck url oracle retries delayMs).2 ∧
        ∃ m, oracle i = AttemptOutcome.exn m) :=
  healthCheckLoop_sleep_mem url oracle retries delayMs i d
    (retries + 1) 0 none "" (by omega)

/-- Witness for C4 amended: a transport exception on attempt 0 with
`retries = 1` produces the sleep event for that attempt. -/
theorem executeHealthCheck_sleep_iff_exn_witness :
    ProbeEvent.sleep 0 5000 ∈ (executeHealthCheck "https://gistgeo.ai/"
      (fun _ => AttemptOutcome.exn "fetch failed") 1 5000).2 :=
  (executeHealthCheck_sleep_iff_exn "https://gistgeo.ai/"
      (fun _ => AttemptOutcome.exn "fetch failed") 1 5000 0 5000).mpr
    ⟨rfl, by decide, by decide, "fetch failed", rfl⟩

/-! ## Claim theorems: exhausted retries (C5) -/

/-- The `lastStatus` accumulator after running `fuel` further attempts
starting at `attempt` from accumulator value `ls`: each HTTP response
overwrites it with its status, a transport exception leaves it
unchanged. -/
def lastStatusFrom (oracle : Nat → AttemptOutcome) :
    Nat → Nat → Option Nat → Option Nat
  | 0, _, ls => ls
  | fuel + 1, attempt, ls =>
      lastStatusFrom oracle fuel (attempt + 1)
        (match oracle attempt with
         | AttemptOutcome.response s _ _ => some s
         | AttemptOutcome.exn _ => ls)

/-- The `lastStatus` accumulator after all attempts `0 .. retries`: the
status of the most recent attempt that received an HTTP response, if
any. -/
def lastRecordedStatus (oracle : Nat → AttemptOutcome) (retries : Nat) :
    Option Nat :=
  lastStatusFrom oracle (retries + 1) 0 none

/-- If every attempt from `attempt` through `retries` fails, the retry
loop exhausts and returns the failure result: `success = false`,
`attempts = retries + 1`, status from the accumulator threading, error
from the final attempt. -/
theorem healthCheckLoop_all_fail (url : String)
    (oracle : Nat → AttemptOutcome) (retries delayMs : Nat) :
    ∀ fuel attempt lastStatus lastError, fuel + attempt = retries + 1 →
      (∀ j, attempt ≤ j → j ≤ retries → outcomeFails (oracle j) = true) →
      (healthCheckLoop url oracle retries delayMs fuel
          attempt lastStatus lastError).1 =
        ⟨url, false, lastStatusFrom oracle fuel attempt lastStatus,
          some (if fuel = 0 then lastError
            else outcomeErrorText (oracle (attempt + (fuel - 1)))),
          retries + 1, none⟩ := by
  intro fuel
  induction fuel with
  | zero =>
      intro attempt ls le _ _
      simp [healthCheckLoop, lastStatusFrom]
  | succ fuel ih =>
      intro attempt ls le hinv hfail
      have hle : attempt ≤ retries := by omega
      have hthis := hfail attempt (Nat.le_refl attempt) hle
      rw [healthCheckLoop]
      cases ho : oracle attempt with
      | response s st t =>
          rw [ho] at hthis
          have hok : httpOk s = false := by
            simpa [outcomeFails] using hthis
          simp only [hok, Bool.false_eq_true, if_false]
          rw [ih (attempt + 1) (some s) _ (by omega)
            (fun j h1 h2 => hfail j (by omega) h2)]
          cases fuel with
          | zero =>
              simp [lastStatusFrom, ho, outcomeErrorText]
          | succ fuel =>
              simp only [lastStatusFrom, ho]
              rw [if_neg (Nat.succ_ne_zero _), if_neg (Nat.succ_ne_zero _)]
              have harg : attempt + 1 + (fuel + 1 - 1) =
                  attempt + (fuel + 1 + 1 - 1) := by omega
              rw [harg]
      | exn m =>
          rw [ih (attempt + 1) ls m (by omega)
            (fun j h1 h2 => hfail j (by omega) h2)]
          cases fuel with
          | zero =>
              simp [lastStatusFrom, ho, outcomeErrorText]
          | succ fuel =>
              simp only [lastStatusFrom, ho]
              rw [if_neg (Nat.succ_ne_zero _), if_neg (Nat.succ_ne_zero _)]
              have harg : attempt + 1 + (fuel + 1 - 1) =
                  attempt + (fuel + 1 + 1 - 1) := by omega
              rw [harg]

/-- C5: when every one of the `retries + 1` attempts fails, the probe
returns `success: false`, `attempts = retries + 1` (the number of
attempts actually made), the error recorded from the last (final)
attempt, and the status from the last attempt that received an HTTP
response. -/
theorem executeHealthCheck_all_fail (url : String)
    (oracle : Nat → AttemptOutcome) (retries delayMs : Nat)
    (h : ∀ j, j ≤ retries → outcomeFails (oracle j) = true) :
    (executeHealthCheck url oracle retries delayMs).1 =
      ⟨url, false, lastRecordedStatus oracle retries,
        some (outcomeErrorText (oracle retries)), retries + 1, none⟩ := by
  rw [executeHealthCheck, healthCheckLoop_all_fail url oracle retries delayMs
    (retries + 1) 0 none "" (by omega) (fun j _ hj => h j hj)]
  rw [lastRecordedStatus]
  norm_num

/-- Witness for C5: with `retries = 1`, a connection error on attempt 0
and a `503` response on attempt 1 (all attempts failing), the probe
reports `attempts: 2` and carries the error of the second attempt. -/
theorem executeHealthCheck_all_fail_witness :
    (executeHealthCheck "https://gistgeo.ai/"
        (fun j => if j = 0 then AttemptOutcome.exn "connect ECONNREFUSED"
          else AttemptOutcome.response 503 "Service Unavailable" 7) 1 5000).1 =
      ⟨"https://gistgeo.ai/", false, some 503,
        some "HTTP 503: Service Unavailable", 2, none⟩ := by
  rw [executeHealthCheck_all_fail "https://gistgeo.ai/"
    (fun j => if j = 0 then AttemptOutcome.exn "connect ECONNREFUSED"
      else AttemptOutcome.response 503 "Service Unavailable" 7) 1 5000
    (by intro j hj; interval_cases j <;> decide)]
  decide

/-! ## Claim theorems: health-status endpoint (C6) -/

/-- C6: the health-status endpoint always produces a response: an
injected internal exception yields the error-shaped 503 rather than
propagating, and in normal evaluation the endpoint answers `ok`/200
exactly when both the Convex connection URL is set and non-empty and the
environment name is set, otherwise `error`/503 with `checks.convex`
false exactly when the URL check failed, and an error string naming each
failed check. -/
theorem healthGET_spec (exn convexUrl nodeEnv : Option String)
    (ts : String) :
    (((healthGET exn convexUrl nodeEnv ts).1.status = "ok" ∧
        (healthGET exn convexUrl nodeEnv ts).2 = 200) ∨
      ((healthGET exn convexUrl nodeEnv ts).1.status = "error" ∧
        (healthGET exn convexUrl nodeEnv ts).2 = 503)) ∧
    (∀ m, exn = some m →
      (healthGET exn convexUrl nodeEnv ts).2 = 503 ∧
      (healthGET exn convexUrl nodeEnv ts).1.status = "error" ∧
      (healthGET exn convexUrl nodeEnv ts).1.error = some m) ∧
    (exn = none →
      (((healthGET exn convexUrl nodeEnv ts).1.status = "ok" ∧
          (healthGET exn convexUrl nodeEnv ts).2 = 200) ↔
        ((strTruthy convexUrl).isSome = true ∧
          (strTruthy nodeEnv).isSome = true)) ∧
      ((healthGET exn convexUrl nodeEnv ts).1.checks.convex = false ↔
        strTruthy convexUrl = none) ∧
      (strTruthy convexUrl = none → (strTruthy nodeEnv).isSome = true →
        (healthGET exn convexUrl nodeEnv ts).1.error =
          some "Convex URL not configured") ∧
      ((strTruthy convexUrl).isSome = true → strTruthy nodeEnv = none →
        (healthGET exn convexUrl nodeEnv ts).1.error =
          some "Environment not configured") ∧
      (strTruthy convexUrl = none → strTruthy nodeEnv = none →
        (healthGET exn convexUrl nodeEnv ts).1.error =
          some "Convex URL not configured, Environment not configured")) := by
  cases exn with
  | some m =>
      refine ⟨Or.inr ⟨rfl, rfl⟩, ?_, ?_⟩
      · intro m2 hm2
        obtain rfl : m = m2 := by simpa using hm2
        exact ⟨rfl, rfl, rfl⟩
      · intro h
        simp at h
  | none =>
      cases hc : strTruthy convexUrl with
      | some cu =>
          cases hn : strTruthy nodeEnv with
          | some ne2 =>
              refine ⟨Or.inl ?_, by simp, fun _ => ⟨?_, ?_, ?_, ?_, ?_⟩⟩ <;>
                simp [healthGET, hc, hn, String.intercalate] <;> rfl
          | none =>
              refine ⟨Or.inr ?_, by simp, fun _ => ⟨?_, ?_, ?_, ?_, ?_⟩⟩ <;>
                simp [healthGET, hc, hn, String.intercalate] <;> rfl
      | none =>
          cases hn : strTruthy nodeEnv with
          | some ne2 =>
              refine ⟨Or.inr ?_, by simp, fun _ => ⟨?_, ?_, ?_, ?_, ?_⟩⟩ <;>
                simp [healthGET, hc, hn, String.intercalate] <;> rfl
          | none =>
              refine ⟨Or.inr ?_, by simp, fun _ => ⟨?_, ?_, ?_, ?_, ?_⟩⟩ <;>
                simp [healthGET, hc, hn, String.intercalate] <;> rfl

/-- Witness for C6: with no Convex URL and `NODE_ENV=production`, the
endpoint reports `checks.convex = false`, status `error`, HTTP 503, and
the error string naming the failed check. -/
theorem healthGET_spec_witness :
    (healthGET none none (some "production")
        "2024-11-03T12:00:00.000Z").1.checks.convex = false ∧
    (healthGET none none (some "production")
        "2024-11-03T12:00:00.000Z").2 = 503 ∧
    (healthGET none none (some "production")
        "2024-11-03T12:00:00.000Z").1.error =
      some "Convex URL not configured" := by
  have h := healthGET_spec none none (some "production")
    "2024-11-03T12:00:00.000Z"
  have h2 := h.2.2 rfl
  refine ⟨h2.2.1.mpr rfl, ?_, h2.2.2.1 rfl (by decide)⟩
  rcases h.1 with ⟨hok, h200⟩ | ⟨-, h503⟩
  · have := h2.1.mp ⟨hok, h200⟩
    simp [strTruthy] at this
  · exact h503

/-! ## Claim theorems: alert dispatcher (C7) -/

/-- C7: the dispatcher skips silently in two cases — with no webhook
passed and none configured it returns `false` with no network call (even
when every result succeeded, as the arbitrary `results` here allows);
with a webhook available but no failed result it returns `true` with no
network call. -/
theorem sendSlackAlert_skips (nowText : String)
    (results : List HealthCheckResult) (baseUrl : String)
    (webhookUrl envWebhook : Option String) (post : PostOutcome) :
    (resolveWebhook webhookUrl envWebhook = none →
      sendSlackAlert nowText results baseUrl webhookUrl envWebhook post =
        (false, [])) ∧
    ((∃ w, resolveWebhook webhookUrl envWebhook = some w) →
      (∀ r ∈ results, r.success = true) →
      sendSlackAlert nowText results baseUrl webhookUrl envWebhook post =
        (true, [])) := by
  constructor
  · intro h
    simp [sendSlackAlert, h]
  · rintro ⟨w, hw⟩ hall
    have hfilter : results.filter (fun r => !r.success) = [] := by
      rw [List.filter_eq_nil_iff]
      intro r hr
      simp [hall r hr]
    simp [sendSlackAlert, hw, hfilter]

/-- Witness for C7: one all-success result list, dispatched once with no
webhook anywhere (`false`, no call) and once with an explicit webhook
(`true`, no call). -/
theorem sendSlackAlert_skips_witness :
    sendSlackAlert "Nov 3, 2024, 12:00 PM"
        [⟨"https://gistgeo.ai/", true, some 200, none, 1, some 4⟩]
        "https://gistgeo.ai" none none (PostOutcome.response 200 "OK") =
      (false, []) ∧
    sendSlackAlert "Nov 3, 2024, 12:00 PM"
        [⟨"https://gistgeo.ai/", true, some 200, none, 1, some 4⟩]
        "https://gistgeo.ai" (some "https://hooks.slack.com/services/T0/B0/x")
        none (PostOutcome.response 200 "OK") =
      (true, []) :=
  ⟨(sendSlackAlert_skips "Nov 3, 2024, 12:00 PM"
      [⟨"https://gistgeo.ai/", true, some 200, none, 1, some 4⟩]
      "https://gistgeo.ai" none none (PostOutcome.response 200 "OK")).1 rfl,
    (sendSlackAlert_skips "Nov 3, 2024, 12:00 PM"
      [⟨"https://gistgeo.ai/", true, some 200, none, 1, some 4⟩]
      "https://gistgeo.ai" (some "https://hooks.slack.com/services/T0/B0/x")
      none (PostOutcome.response 200 "OK")).2 ⟨_, rfl⟩ (by decide)⟩

/-! ## Claim theorems: alert formatter (C9) -/

/-- C9 counterexample: two invocations of `formatHealthAlert` with
identical results lists and identical base URL but different ambient
clock readings produce different payloads (the context block's
timestamp differs), so the output of the source function — which reads
`new Date()` internally — is not determined by its two arguments
alone. -/
theorem formatHealthAlert_clock_dependent_cex :
    formatHealthAlert "Nov 3, 2024, 12:00 PM" [] "https://gistgeo.ai" ≠
      formatHealthAlert "Nov 4, 2024, 1:05 PM" [] "https://gistgeo.ai" := by
  decide

/-- The `fields` list of the fourth block (the per-failure section) of
an alert payload. -/
def alertFields (a : SlackHealthAlert) : List SlackField :=
  ((a.blocks.getD 3 ⟨"", none, none, none⟩).fields).getD []

/-- C9 amended: `formatHealthAlert` is a pure function of its two
arguments and the ambient clock reading it formats.  Its failure fields
are built exactly from the results with `success: false` (four fields
per failed check, empty when none failed), and the two declared
arguments determine the whole payload except the timestamp context
block: runs under different clock readings agree on the summary text and
on the first five blocks. -/
theorem formatHealthAlert_fields_and_clock (nowText nowText2 : String)
    (results : List HealthCheckResult) (baseUrl : String) :
    alertFields (formatHealthAlert nowText results baseUrl) =
      (results.filter fun r => !r.success).flatMap failedCheckFields ∧
    ((∀ r ∈ results, r.success = true) →
      alertFields (formatHealthAlert nowText results baseUrl) = []) ∧
    (formatHealthAlert nowText results baseUrl).text =
      (formatHealthAlert nowText2 results baseUrl).text ∧
    (formatHealthAlert nowText results baseUrl).blocks.take 5 =
      (formatHealthAlert nowText2 results baseUrl).blocks.take 5 := by
  refine ⟨rfl, ?_, rfl, rfl⟩
  intro hall
  have hfilter : results.filter (fun r => !r.success) = [] := by
    rw [List.filter_eq_nil_iff]
    intro r hr
    simp [hall r hr]
  simp [formatHealthAlert, alertFields, hfilter]

/-- Witness for C9 amended: an all-success result list yields an empty
failure-field list. -/
theorem formatHealthAlert_fields_and_clock_witness :
    alertFields (formatHealthAlert "Nov 3, 2024, 12:00 PM"
      [⟨"https://gistgeo.ai/", true, some 200, none, 1, some 5⟩]
      "https://gistgeo.ai") = [] :=
  (formatHealthAlert_fields_and_clock "Nov 3, 2024, 12:00 PM"
    "Nov 4, 2024, 1:05 PM"
    [⟨"https://gistgeo.ai/", true, some 200, none, 1, some 5⟩]
    "https://gistgeo.ai").2.1 (by decide)

end GistGeo
